import Mathlib

/-!
# Verification of the VRP routing program (`main.py`)

Shallow embedding of the program's data model, geographic distance code,
cost callbacks, capacity dimension and solution report, with theorems
checking the natural-language specification against it.

Conventions:
* Python floats are embedded as exact rationals (`ℚ`) in the solver-facing
  data (every IEEE-754 double is a rational), and as reals (`ℝ`) in the
  geographic layer where the mathematical functions `sin`, `cos`, `asin`,
  `sqrt` appear.
* Python's `round` builtin (round-half-to-even, "banker's rounding") is
  embedded as `pyRound`.
* OR-Tools routing indices are identified with node indices: the program
  only ever passes indices through `manager.IndexToNode`, which is the
  identity on the node domain for a single-depot model with no index
  remapping relevant to the properties below.
-/

open Real

/-! ## Geographic layer (`haversine`, `haversine_all_locations`) -/

/-- `math.radians`: degrees to radians. -/
noncomputable def radians (x : ℝ) : ℝ := x * π / 180

/-- Embedding of `haversine(lat1, lon1, lat2, lon2)` (src/main.py lines 22-46):
converts the four arguments from degrees to radians, computes
`a = sin(dlat/2)^2 + cos(lat1)*cos(lat2)*sin(dlon/2)^2`,
`c = 2*asin(sqrt(a))` and returns `c * 6371`.  There is no clamping of `a`
in the source; `Real.sqrt` and `Real.arcsin` are total, and the lemma
`haversine_a_mem_Icc` below shows the argument stays in `[0,1]` in exact
real arithmetic. -/
noncomputable def haversine (lat1 lon1 lat2 lon2 : ℝ) : ℝ :=
  let lat1r := radians lat1
  let lon1r := radians lon1
  let lat2r := radians lat2
  let lon2r := radians lon2
  let dlat := lat2r - lat1r
  let dlon := lon2r - lon1r
  let a := sin (dlat / 2) ^ 2 + cos lat1r * cos lat2r * sin (dlon / 2) ^ 2
  let c := 2 * arcsin (Real.sqrt a)
  c * 6371

/-- Embedding of `haversine_all_locations(locations)` (src/main.py lines 48-65):
for each ordered pair of locations it calls
`haversine(loc_a[1], loc_a[0], loc_b[1], loc_b[0])` — note the source passes
each tuple's second component (`longitude`) as the latitude argument and the
first component (`latitude`) as the longitude argument. -/
noncomputable def haversine_all_locations (locations : List (ℝ × ℝ)) :
    List (List ℝ) :=
  locations.map (fun loc_a =>
    locations.map (fun loc_b => haversine loc_a.2 loc_a.1 loc_b.2 loc_b.1))

/-! ## Data model (`create_data_model`) -/

/-- One vehicle-type record from the JSON input (`json_data['Vehicles']`
values): capacity, number of vehicles, cost per kilometers, cost per
delivery. -/
structure VehicleType (α : Type) where
  capacity : ℤ
  number_of_vehicles : ℤ
  cost_per_kilometers : α
  cost_per_delivery : α

/-- One mission record: latitude, longitude and the boolean `return` flag
(named `ret` here since `return` is reserved). -/
structure Mission where
  latitude : ℝ
  longitude : ℝ
  ret : Bool

/-- The parsed JSON input: warehouse coordinates, vehicle types (in dict
iteration order) and missions (in input order). -/
structure Config where
  warehouse : ℝ × ℝ
  vehicles : List (VehicleType ℝ)
  missions : List Mission

/-- The dictionary built by `create_data_model`, with the two lists of
`data['vehicle_costs']` inlined as two fields.  The scalar type `α` is `ℝ`
for the idealized geographic construction and `ℚ` for the solver-facing
runtime values (floats). -/
structure DataModel (α : Type) where
  distance_matrix : List (List α)
  num_vehicles : ℤ
  depot : ℕ
  vehicle_capacities : List ℤ
  distance_cost : List α
  delivery_cost : List α
  demands : List ℤ

/-- Embedding of `create_data_model(json_data)` (src/main.py lines 67-101).
Python's `[x] * n` yields the empty list for `n ≤ 0`, embedded as
`List.replicate n.toNat x`.  There is no validation of capacities or counts
anywhere in the function: it is total and never raises. -/
noncomputable def create_data_model (json_data : Config) : DataModel ℝ :=
  let locations :=
    json_data.warehouse :: json_data.missions.map (fun m => (m.latitude, m.longitude))
  { distance_matrix := haversine_all_locations locations
    num_vehicles := (json_data.vehicles.map (fun v => v.number_of_vehicles)).sum
    depot := 0
    vehicle_capacities :=
      json_data.vehicles.flatMap
        (fun v => List.replicate v.number_of_vehicles.toNat v.capacity)
    distance_cost :=
      json_data.vehicles.flatMap
        (fun v => List.replicate v.number_of_vehicles.toNat v.cost_per_kilometers)
    delivery_cost :=
      json_data.vehicles.flatMap
        (fun v => List.replicate v.number_of_vehicles.toNat v.cost_per_delivery)
    demands :=
      0 :: json_data.missions.map (fun m => if m.ret then (-1 : ℤ) else 1) }

/-! ## Rounding -/

/-- Python 3's `round` builtin on an exact value: round half to even
("banker's rounding").  `int(round(x))` in the source is this function,
since `round` already returns an integral value. -/
def pyRound (q : ℚ) : ℤ :=
  let f := ⌊q⌋
  let r := q - f
  if r < 1/2 then f
  else if 1/2 < r then f + 1
  else if f % 2 = 0 then f else f + 1

/-- Modelled from the spec: "half-up" rounding, in which a fractional part
of exactly .5 rounds away from zero toward the larger magnitude.  Used only
to compare against the source's actual rounding. -/
def halfUpRound (q : ℚ) : ℤ :=
  if 0 ≤ q then ⌊q + 1/2⌋ else -⌊-q + 1/2⌋

/-! ## Cost callbacks -/

/-- The floating cost accumulated by `cost_callback` before rounding
(src/main.py lines 161-166), for an explicit vehicle index:
`distance_cost[vehicle] * distance_matrix[from][to]`, plus
`delivery_cost[vehicle]` when neither endpoint is the depot. -/
def rawCost (data : DataModel ℚ) (vehicle from_node to_node : ℕ) : ℚ :=
  let cost := data.distance_cost.getD vehicle 0 *
    ((data.distance_matrix.getD from_node []).getD to_node 0)
  if to_node ≠ data.depot ∧ from_node ≠ data.depot then
    cost + data.delivery_cost.getD vehicle 0
  else cost

/-- `cost_callback(from_index, to_index)` with the value the closed-over
loop variable `vehicle` holds at call time passed explicitly:
`int(round(cost))` of `rawCost`. -/
def cost_callback (data : DataModel ℚ) (vehicle from_node to_node : ℕ) : ℤ :=
  pyRound (rawCost data vehicle from_node to_node)

/-- The registration loop `for vehicle in range(data['num_vehicles'])`
(src/main.py lines 159-169).  Each iteration defines and registers a
closure over the *same* variable `vehicle`; the closure's behaviour depends
only on the value that variable holds when the closure is finally called,
so each registered entry is one and the same function of
(cell value, from, to) — the iteration index never enters the closure. -/
def registrationLoop (data : DataModel ℚ) : List (ℕ → ℕ → ℕ → ℤ) :=
  (List.range data.num_vehicles.toNat).map
    (fun _ => fun vehicle from_node to_node =>
      cost_callback data vehicle from_node to_node)

/-- The callback OR-Tools holds for vehicle `v` after the loop finishes:
the `v`-th registered closure, evaluated with the loop variable's final
value `num_vehicles - 1` (Python `for` leaves the variable at the last
element of the range; the callbacks are only invoked during `Solve`, after
the loop completes). -/
def registeredCallback (data : DataModel ℚ) (v : ℕ) : ℕ → ℕ → ℤ :=
  ((registrationLoop data).getD v (fun _ _ _ => 0))
    (data.num_vehicles.toNat - 1)

/-! ## Solution report (`print_solution`) -/

/-- Per-arc cost recomputed by `print_solution` (src/main.py lines 124-127):
`distance * distance_cost[vehicle_id]`, plus `delivery_cost[vehicle_id]`
when the entered node has nonzero demand.  No rounding is applied. -/
def segment_cost (data : DataModel ℚ) (vehicle_id node_index next_node_index : ℕ) : ℚ :=
  let distance_cost := (data.distance_matrix.getD node_index []).getD next_node_index 0 *
    data.distance_cost.getD vehicle_id 0
  let delivery_action := data.demands.getD next_node_index 0 ≠ 0
  let delivery_cost := if delivery_action then data.delivery_cost.getD vehicle_id 0 else 0
  distance_cost + delivery_cost

/-- The consecutive arcs of a route given as the list of visited nodes
(start depot first, end depot last), as walked by the `while` loop of
`print_solution`. -/
def routeArcs (route : List ℕ) : List (ℕ × ℕ) := route.zip route.tail

/-- `route_distance` accumulated by `print_solution` (line 123). -/
def route_distance (data : DataModel ℚ) (route : List ℕ) : ℚ :=
  (routeArcs route).foldl
    (fun acc arc => acc + (data.distance_matrix.getD arc.1 []).getD arc.2 0) 0

/-- `route_cost` accumulated by `print_solution` (line 128). -/
def route_cost (data : DataModel ℚ) (vehicle_id : ℕ) (route : List ℕ) : ℚ :=
  (routeArcs route).foldl
    (fun acc arc => acc + segment_cost data vehicle_id arc.1 arc.2) 0

/-- `total_distance` accumulated over `vehicle_id in range(num_vehicles)`
(line 135); `routes` maps each vehicle index to its route. -/
def total_distance (data : DataModel ℚ) (routes : List (List ℕ)) : ℚ :=
  (List.range data.num_vehicles.toNat).foldl
    (fun acc v => acc + route_distance data (routes.getD v [])) 0

/-- `total_cost` accumulated over `vehicle_id in range(num_vehicles)`
(line 136). -/
def total_cost (data : DataModel ℚ) (routes : List (List ℕ)) : ℚ :=
  (List.range data.num_vehicles.toNat).foldl
    (fun acc v => acc + route_cost data v (routes.getD v [])) 0

/-- The structured report `print_solution` renders: per-vehicle stop lists,
per-route distance and cost, fleet totals. -/
structure Report where
  routes : List (List ℕ)
  route_distances : List ℚ
  route_costs : List ℚ
  fleet_distance : ℚ
  fleet_cost : ℚ

/-- The report built by one pass of `print_solution` over a solution's
routes. -/
def buildReport (data : DataModel ℚ) (routes : List (List ℕ)) : Report :=
  { routes := routes
    route_distances :=
      (List.range data.num_vehicles.toNat).map
        (fun v => route_distance data (routes.getD v []))
    route_costs :=
      (List.range data.num_vehicles.toNat).map
        (fun v => route_cost data v (routes.getD v []))
    fleet_distance := total_distance data routes
    fleet_cost := total_cost data routes }

/-- The tail of `main` (src/main.py lines 199-203): `SolveWithParameters`
hands back either a solution or `None`; `main` prints a report only in the
former case (`if solution: print_solution(...)`) and otherwise falls
through silently, producing nothing. -/
def mainHandleSolution (data : DataModel ℚ) (solution : Option (List (List ℕ))) :
    Option Report :=
  solution.map (fun routes => buildReport data routes)

/-! ## Capacity dimension -/

/-- Embedding of `demand_callback(from_index)` (src/main.py lines 173-177):
the demand of the from node. -/
def demand_callback (data : DataModel ℚ) (from_index : ℕ) : ℤ :=
  data.demands.getD from_index 0

/-- The cumulative signed load after visiting the first `k` nodes of a
route, starting at 0: the quantity the specification's capacity invariant
is about. -/
def cumulative_load (data : DataModel ℚ) (route : List ℕ) (k : ℕ) : ℤ :=
  ((route.take k).map (fun n => demand_callback data n)).sum

/-! ## Example inputs used by concrete evaluations -/

/-- A runtime data model with two vehicles whose distance costs differ
(vehicle 0 costs 1 per km, vehicle 1 costs 2 per km), two nodes 1 km
apart, and no delivery fees. -/
def exampleTwoVehicles : DataModel ℚ :=
  { distance_matrix := [[0, 1], [1, 0]]
    num_vehicles := 2
    depot := 0
    vehicle_capacities := [1, 1]
    distance_cost := [1, 2]
    delivery_cost := [0, 0]
    demands := [0, 1] }

/-- A runtime data model with one vehicle whose distance cost is 1/2, so
the raw cost of the unit-distance arc out of the depot is exactly 1/2. -/
def exampleHalfCost : DataModel ℚ :=
  { distance_matrix := [[0, 1], [1, 0]]
    num_vehicles := 1
    depot := 0
    vehicle_capacities := [1]
    distance_cost := [1/2]
    delivery_cost := [0]
    demands := [0, 1] }

/-- A runtime data model with one vehicle and a nonzero delivery fee,
separating `print_solution`'s per-arc recomputation from the registered
cost callback on the depot-to-mission arc. -/
def exampleDeliveryFee : DataModel ℚ :=
  { distance_matrix := [[0, 1], [1, 0]]
    num_vehicles := 1
    depot := 0
    vehicle_capacities := [1]
    distance_cost := [1]
    delivery_cost := [5]
    demands := [0, 1] }

/-- A configuration whose single vehicle type declares capacity −1 (a
non-positive capacity) and one vehicle. -/
noncomputable def exampleBadCapacityConfig : Config :=
  { warehouse := (0, 0)
    vehicles := [{ capacity := -1, number_of_vehicles := 1,
                   cost_per_kilometers := 1, cost_per_delivery := 1 }]
    missions := [] }

/-- A concrete assignment of capacity-dimension cumul values for the route
`[0, 1, 0]` over `exampleDeliveryFee` (load 0 at the depot, 0 after
leaving it, 1 after the mission). -/
def exampleCumul : ℕ → ℤ := fun i => if i ≤ 1 then 0 else 1

/-! ## Theorems -/

/-- C10: every registered cost callback closes over the same loop variable
and is only called after the registration loop ends, so the callbacks for
any two in-range vehicle indices are extensionally equal, both computing
the cost with the coefficients of the last vehicle. -/
theorem registered_callbacks_identical
    (data : DataModel ℚ) (v w : ℕ)
    (hv : v < data.num_vehicles.toNat) (hw : w < data.num_vehicles.toNat)
    (from_node to_node : ℕ) :
    registeredCallback data v from_node to_node =
      cost_callback data (data.num_vehicles.toNat - 1) from_node to_node ∧
    registeredCallback data v from_node to_node =
      registeredCallback data w from_node to_node := by
  have h : ∀ u, u < data.num_vehicles.toNat →
      registeredCallback data u from_node to_node =
        cost_callback data (data.num_vehicles.toNat - 1) from_node to_node := by
    intro u hu
    simp [registeredCallback, registrationLoop, List.getD_eq_getElem?_getD,
      List.getElem?_map, List.getElem?_range, hu]
  exact ⟨h v hv, (h v hv).trans (h w hw).symm⟩

/-- Witness for `registered_callbacks_identical` at a concrete two-vehicle
data model. -/
theorem registered_callbacks_identical_witness :
    0 < exampleTwoVehicles.num_vehicles.toNat ∧
    1 < exampleTwoVehicles.num_vehicles.toNat ∧
    (registeredCallback exampleTwoVehicles 0 0 1 =
      cost_callback exampleTwoVehicles
        (exampleTwoVehicles.num_vehicles.toNat - 1) 0 1 ∧
     registeredCallback exampleTwoVehicles 0 0 1 =
      registeredCallback exampleTwoVehicles 1 0 1) :=
  ⟨by norm_num [exampleTwoVehicles], by norm_num [exampleTwoVehicles],
    registered_callbacks_identical exampleTwoVehicles 0 1
      (by norm_num [exampleTwoVehicles]) (by norm_num [exampleTwoVehicles]) 0 1⟩

/-- C1: the callback registered for vehicle 0 does *not* return the cost
computed with vehicle 0's own coefficients: on the arc (0, 1) of
`exampleTwoVehicles` (distance 1 km, `distance_cost = [1, 2]`, no delivery
fees) it returns 2 — vehicle 1's cost — while the claimed value
`round(distance_cost[0] * distance[0][1])` is 1. -/
theorem cost_callback_late_binding_bug :
    registeredCallback exampleTwoVehicles 0 0 1 = 2 ∧
    cost_callback exampleTwoVehicles 0 0 1 = 1 ∧
    registeredCallback exampleTwoVehicles 0 0 1 =
      cost_callback exampleTwoVehicles 1 0 1 := by
  have h2 : ((2:ℤ).toNat) = 2 := rfl
  norm_num [registeredCallback, registrationLoop, cost_callback, rawCost,
    exampleTwoVehicles, pyRound, List.range_succ, h2]

/-- Helper: a left fold accumulating `f` over a list equals the initial
value plus the sum of the mapped list. -/
theorem foldl_add_map {α : Type} (f : α → ℚ) (l : List α) (init : ℚ) :
    l.foldl (fun acc x => acc + f x) init = init + (l.map f).sum := by
  induction l generalizing init with
  | nil => simp
  | cons a t ih => simp [ih, add_assoc]

/-- Helper: when the fractional part of `q` is exactly 1/2, `pyRound`
returns an even integer within 1/2 of `q`. -/
theorem pyRound_half_even (q : ℚ) (h : q - ⌊q⌋ = 1/2) :
    pyRound q % 2 = 0 ∧ |(pyRound q : ℚ) - q| = 1/2 := by
  have hq : q = (⌊q⌋ : ℚ) + 1/2 := by linarith
  have hval : pyRound q = if ⌊q⌋ % 2 = 0 then ⌊q⌋ else ⌊q⌋ + 1 := by
    unfold pyRound
    simp only [h]
    norm_num
  constructor
  · rw [hval]
    by_cases hp : ⌊q⌋ % 2 = 0
    · simp [hp]
    · simp [hp]
      omega
  · rw [hval]
    by_cases hp : ⌊q⌋ % 2 = 0 <;> simp [hp] <;> rw [hq] <;>
      [skip; push_cast] <;> rw [abs_sub_comm] <;> norm_num

/-- C8 (amended): the conversion of the floating cost to an integer is
Python's `round`, which rounds half to even: whenever the raw cost has
fractional part exactly 1/2, the returned integer is even and lies within
1/2 of the raw cost. -/
theorem cost_callback_rounds_half_to_even
    (data : DataModel ℚ) (vehicle from_node to_node : ℕ)
    (hhalf : rawCost data vehicle from_node to_node -
      ⌊rawCost data vehicle from_node to_node⌋ = 1/2) :
    cost_callback data vehicle from_node to_node % 2 = 0 ∧
    |(cost_callback data vehicle from_node to_node : ℚ) -
      rawCost data vehicle from_node to_node| = 1/2 :=
  pyRound_half_even _ hhalf

/-- Witness for `cost_callback_rounds_half_to_even`: on `exampleHalfCost`
the arc (0, 1) has raw cost exactly 1/2. -/
theorem cost_callback_rounds_half_to_even_witness :
    (rawCost exampleHalfCost 0 0 1 - ⌊rawCost exampleHalfCost 0 0 1⌋ = 1/2) ∧
    (cost_callback exampleHalfCost 0 0 1 % 2 = 0 ∧
     |(cost_callback exampleHalfCost 0 0 1 : ℚ) -
       rawCost exampleHalfCost 0 0 1| = 1/2) :=
  ⟨by norm_num [rawCost, exampleHalfCost],
   cost_callback_rounds_half_to_even exampleHalfCost 0 0 1
     (by norm_num [rawCost, exampleHalfCost])⟩

/-- C8 (counterexample): the cost conversion is not half-up.  On
`exampleHalfCost` the raw cost of arc (0, 1) is exactly 1/2; the callback
returns 0 (half to even) while half-up rounding would return 1. -/
theorem cost_callback_not_half_up :
    cost_callback exampleHalfCost 0 0 1 = 0 ∧
    halfUpRound (rawCost exampleHalfCost 0 0 1) = 1 ∧
    cost_callback exampleHalfCost 0 0 1 ≠
      halfUpRound (rawCost exampleHalfCost 0 0 1) := by
  norm_num [cost_callback, rawCost, pyRound, halfUpRound, exampleHalfCost]

/-- C2 (amended): the report's accumulated per-route cost is the sum of
the per-arc segment costs it recomputes, and the fleet total is the sum of
the per-route totals (both by construction of the accumulation loops); the
recomputed per-arc cost, however, is `segment_cost`, not the registered
callback's value. -/
theorem report_totals_consistent
    (data : DataModel ℚ) (routes : List (List ℕ)) :
    (∀ v route, route_cost data v route =
      ((routeArcs route).map (fun arc => segment_cost data v arc.1 arc.2)).sum) ∧
    total_cost data routes =
      ((List.range data.num_vehicles.toNat).map
        (fun v => route_cost data v (routes.getD v []))).sum ∧
    (buildReport data routes).fleet_cost =
      ((buildReport data routes).route_costs).sum := by
  refine ⟨fun v route => ?_, ?_, ?_⟩
  · unfold route_cost
    rw [foldl_add_map]
    simp
  · unfold total_cost
    rw [foldl_add_map]
    simp
  · show total_cost data routes = _
    unfold total_cost
    rw [foldl_add_map]
    simp [buildReport]

/-- C2 (counterexample): on `exampleDeliveryFee`, for the
depot-to-mission arc (0, 1) the report recomputes a segment cost of 6
(distance cost 1 plus delivery fee 5, charged because the entered node has
nonzero demand), while the cost callback returns 1 (no delivery fee, since
the arc originates at the depot; result rounded to an integer). -/
theorem report_segment_cost_mismatch :
    segment_cost exampleDeliveryFee 0 0 1 = 6 ∧
    cost_callback exampleDeliveryFee 0 0 1 = 1 ∧
    registeredCallback exampleDeliveryFee 0 0 1 = 1 ∧
    segment_cost exampleDeliveryFee 0 0 1 ≠
      (cost_callback exampleDeliveryFee 0 0 1 : ℚ) := by
  have h1 : ((1:ℤ).toNat) = 1 := rfl
  norm_num [segment_cost, cost_callback, rawCost, pyRound, registeredCallback,
    registrationLoop, exampleDeliveryFee, List.range_succ, h1]

/-- C7 (counterexample): when the solver hands back no solution, `main`
produces nothing at all — the `if solution:` guard skips reporting and no
explicit infeasibility value is handed to the caller. -/
theorem main_silent_on_no_solution :
    mainHandleSolution exampleTwoVehicles none = none := rfl

/-- C7 (amended): `main` produces a report exactly when the solver returns
a solution; on infeasibility it silently produces nothing — never a
partial or fabricated solution report, but also never an explicit
infeasibility result. -/
theorem main_reports_iff_solution
    (data : DataModel ℚ) (solution : Option (List (List ℕ))) :
    ((mainHandleSolution data solution).isSome ↔ solution.isSome) ∧
    (∀ routes, solution = some routes →
      mainHandleSolution data solution = some (buildReport data routes)) := by
  constructor
  · cases solution <;> simp [mainHandleSolution]
  · intro routes h
    subst h
    rfl

/-- Witness for `main_reports_iff_solution` at a concrete solution. -/
theorem main_reports_iff_solution_witness :
    ((mainHandleSolution exampleTwoVehicles
        (some [[0, 1, 0], [0]])).isSome ↔
      (some [[0, 1, 0], [0]] : Option (List (List ℕ))).isSome) ∧
    (∀ routes, (some [[0, 1, 0], [0]] : Option (List (List ℕ))) = some routes →
      mainHandleSolution exampleTwoVehicles (some [[0, 1, 0], [0]]) =
        some (buildReport exampleTwoVehicles routes)) :=
  main_reports_iff_solution exampleTwoVehicles (some [[0, 1, 0], [0]])

/-- C6 (counterexample): `create_data_model` performs no validation and
never raises: on a configuration whose only vehicle type has capacity −1
it succeeds, propagating the non-positive capacity into the model. -/
theorem create_data_model_accepts_bad_capacity :
    (create_data_model exampleBadCapacityConfig).vehicle_capacities = [-1] ∧
    (create_data_model exampleBadCapacityConfig).num_vehicles = 1 :=
  ⟨rfl, rfl⟩

/-- C6 (amended): `create_data_model` is total — there is no
`ConfigurationError` anywhere in the program — and every vehicle type with
a positive count has its capacity copied into `vehicle_capacities`
unchanged, whether or not that capacity is positive. -/
theorem create_data_model_total_no_validation
    (json_data : Config) (vt : VehicleType ℝ)
    (hmem : vt ∈ json_data.vehicles) (hcount : 0 < vt.number_of_vehicles) :
    vt.capacity ∈ (create_data_model json_data).vehicle_capacities := by
  unfold create_data_model
  simp only [List.mem_flatMap]
  refine ⟨vt, hmem, ?_⟩
  rw [List.mem_replicate]
  exact ⟨by omega, rfl⟩

/-- Witness for `create_data_model_total_no_validation` at
`exampleBadCapacityConfig`. -/
theorem create_data_model_total_no_validation_witness :
    ((⟨-1, 1, 1, 1⟩ : VehicleType ℝ) ∈ exampleBadCapacityConfig.vehicles) ∧
    (0 < (⟨-1, 1, 1, 1⟩ : VehicleType ℝ).number_of_vehicles) ∧
    ((⟨-1, 1, 1, 1⟩ : VehicleType ℝ).capacity ∈
      (create_data_model exampleBadCapacityConfig).vehicle_capacities) :=
  ⟨by simp [exampleBadCapacityConfig], by norm_num,
   create_data_model_total_no_validation exampleBadCapacityConfig _
     (by simp [exampleBadCapacityConfig]) (by norm_num)⟩

/-- Helper: one step of the cumulative load along a route. -/
theorem cumulative_load_succ
    (data : DataModel ℚ) (route : List ℕ) (n : ℕ) (hn : n < route.length) :
    cumulative_load data route (n + 1) =
      cumulative_load data route n + demand_callback data (route.getD n 0) := by
  unfold cumulative_load
  rw [List.take_succ, List.getElem?_eq_getElem hn]
  rw [route.getD_eq_getElem 0 hn]
  simp only [Option.toList_some, List.map_append, List.map_cons, List.map_nil,
    List.sum_append, List.sum_cons, List.sum_nil, add_zero]

/-- C3: for any route whose capacity-dimension cumul values satisfy the
constraints registered by `AddDimensionWithVehicleCapacity` (start cumul
zero, zero slack — each transition adds exactly the from node's demand —
and every cumul variable bounded by `[0, capacity]`), the cumulative
signed load along every prefix of the route stays within
`[0, vehicle capacity]`. -/
theorem capacity_prefix_invariant
    (data : DataModel ℚ) (v : ℕ) (route : List ℕ) (c : ℕ → ℤ)
    (hzero : c 0 = 0)
    (hstep : ∀ i < route.length - 1,
      c (i + 1) = c i + demand_callback data (route.getD i 0))
    (hlow : ∀ i < route.length, 0 ≤ c i)
    (hhigh : ∀ i < route.length, c i ≤ data.vehicle_capacities.getD v 0) :
    ∀ k < route.length, 0 ≤ cumulative_load data route k ∧
      cumulative_load data route k ≤ data.vehicle_capacities.getD v 0 := by
  have key : ∀ k, k < route.length → cumulative_load data route k = c k := by
    intro k
    induction k with
    | zero =>
      intro _
      simp [cumulative_load, hzero]
    | succ n ih =>
      intro hk
      have hn : n < route.length := by omega
      rw [cumulative_load_succ data route n hn, ih hn,
        (hstep n (by omega)).symm]
  intro k hk
  rw [key k hk]
  exact ⟨hlow k hk, hhigh k hk⟩

/-- Witness for `capacity_prefix_invariant`: the route `[0, 1, 0]` over
`exampleDeliveryFee` (capacity 1, demands `[0, 1]`) with the concrete
cumul values `exampleCumul`. -/
theorem capacity_prefix_invariant_witness :
    (exampleCumul 0 = 0) ∧
    (∀ i < ([0, 1, 0] : List ℕ).length - 1,
      exampleCumul (i + 1) = exampleCumul i +
        demand_callback exampleDeliveryFee (([0, 1, 0] : List ℕ).getD i 0)) ∧
    (∀ i < ([0, 1, 0] : List ℕ).length, 0 ≤ exampleCumul i) ∧
    (∀ i < ([0, 1, 0] : List ℕ).length,
      exampleCumul i ≤ exampleDeliveryFee.vehicle_capacities.getD 0 0) ∧
    (∀ k < ([0, 1, 0] : List ℕ).length,
      0 ≤ cumulative_load exampleDeliveryFee [0, 1, 0] k ∧
      cumulative_load exampleDeliveryFee [0, 1, 0] k ≤
        exampleDeliveryFee.vehicle_capacities.getD 0 0) :=
  ⟨rfl, by decide, by decide, by decide,
   capacity_prefix_invariant exampleDeliveryFee 0 [0, 1, 0] exampleCumul
     rfl (by decide) (by decide) (by decide)⟩

/-- Helper: `haversine` with its lets unfolded into the closed formula. -/
theorem haversine_eval (lat1 lon1 lat2 lon2 : ℝ) :
    haversine lat1 lon1 lat2 lon2 =
      2 * arcsin (Real.sqrt
        (sin ((lat2 * π / 180 - lat1 * π / 180) / 2) ^ 2 +
         cos (lat1 * π / 180) * cos (lat2 * π / 180) *
           sin ((lon2 * π / 180 - lon1 * π / 180) / 2) ^ 2)) * 6371 := rfl

/-- Helper: the haversine distance from a point to itself is zero. -/
theorem haversine_self (lat lon : ℝ) : haversine lat lon lat lon = 0 := by
  rw [haversine_eval]
  simp

/-- Helper: the haversine distance is symmetric in its two points. -/
theorem haversine_comm (lat1 lon1 lat2 lon2 : ℝ) :
    haversine lat1 lon1 lat2 lon2 = haversine lat2 lon2 lat1 lon1 := by
  rw [haversine_eval, haversine_eval]
  have key : ∀ x y : ℝ, sin ((x - y) / 2) ^ 2 = sin ((y - x) / 2) ^ 2 := by
    intro x y
    rw [show (x - y) / 2 = -((y - x) / 2) by ring, Real.sin_neg]
    ring
  rw [key (lat2 * π / 180) (lat1 * π / 180), key (lon2 * π / 180) (lon1 * π / 180),
    mul_comm (cos (lat1 * π / 180)) (cos (lat2 * π / 180))]

/-- Helper: the haversine distance is non-negative (the `arcsin` of a
non-negative square root is non-negative). -/
theorem haversine_nonneg (lat1 lon1 lat2 lon2 : ℝ) :
    0 ≤ haversine lat1 lon1 lat2 lon2 := by
  rw [haversine_eval]
  refine mul_nonneg (mul_nonneg (by norm_num)
    (Real.arcsin_nonneg.mpr (Real.sqrt_nonneg _))) (by norm_num)

/-- Helper: in exact real arithmetic the intermediate quantity `a` of the
haversine formula always lies in `[0, 1]`, for arbitrary real angles — so
`sqrt` and `asin` are applied within their domains even though the source
performs no clamping. -/
theorem haversine_a_mem_Icc (l1 l2 d : ℝ) :
    0 ≤ sin ((l2 - l1) / 2) ^ 2 + cos l1 * cos l2 * sin (d / 2) ^ 2 ∧
    sin ((l2 - l1) / 2) ^ 2 + cos l1 * cos l2 * sin (d / 2) ^ 2 ≤ 1 := by
  have hs1 : sin ((l2 - l1) / 2) ^ 2 = 1/2 - cos (l2 - l1) / 2 := by
    rw [Real.sin_sq_eq_half_sub, show 2 * ((l2 - l1) / 2) = l2 - l1 by ring]
  have hs2 : sin (d / 2) ^ 2 = 1/2 - cos d / 2 := by
    rw [Real.sin_sq_eq_half_sub, show 2 * (d / 2) = d by ring]
  have hx1 : (0:ℝ) ≤ 1 + cos d := by linarith [Real.neg_one_le_cos d]
  have hx2 : (0:ℝ) ≤ 1 - cos d := by linarith [Real.cos_le_one d]
  have hA1 : (0:ℝ) ≤ 1 - cos (l1 - l2) := by linarith [Real.cos_le_one (l1 - l2)]
  have hA2 : (0:ℝ) ≤ 1 + cos (l1 - l2) := by linarith [Real.neg_one_le_cos (l1 - l2)]
  have hB1 : (0:ℝ) ≤ 1 - cos (l1 + l2) := by linarith [Real.cos_le_one (l1 + l2)]
  have hB2 : (0:ℝ) ≤ 1 + cos (l1 + l2) := by linarith [Real.neg_one_le_cos (l1 + l2)]
  have e1 := mul_nonneg hx1 hA1
  have e2 := mul_nonneg hx2 hB2
  have f1 := mul_nonneg hx1 hA2
  have f2 := mul_nonneg hx2 hB1
  rw [Real.cos_sub] at e1 f1
  rw [Real.cos_add] at e2 f2
  rw [hs1, hs2, Real.cos_sub]
  constructor <;> nlinarith [e1, e2, f1, f2]

/-- C9: the distance matrix built by the code is symmetric, zero on the
diagonal, and entrywise non-negative, for every ordered list of locations
and all in-range indices. -/
theorem distance_matrix_symm_diag_nonneg
    (locations : List (ℝ × ℝ)) (i j : ℕ)
    (hi : i < locations.length) (hj : j < locations.length) :
    ((haversine_all_locations locations).getD i []).getD j 0 =
      ((haversine_all_locations locations).getD j []).getD i 0 ∧
    ((haversine_all_locations locations).getD i []).getD i 0 = 0 ∧
    0 ≤ ((haversine_all_locations locations).getD i []).getD j 0 := by
  have entry : ∀ a b : ℕ, ∀ ha : a < locations.length, ∀ hb : b < locations.length,
      ((haversine_all_locations locations).getD a []).getD b 0 =
        haversine (locations.get ⟨a, ha⟩).2 (locations.get ⟨a, ha⟩).1
          (locations.get ⟨b, hb⟩).2 (locations.get ⟨b, hb⟩).1 := by
    intro a b ha hb
    simp [haversine_all_locations, List.getD_eq_getElem?_getD, List.getElem?_map,
      List.getElem?_eq_getElem, ha, hb]
  refine ⟨?_, ?_, ?_⟩
  · rw [entry i j hi hj, entry j i hj hi]
    exact haversine_comm _ _ _ _
  · rw [entry i i hi hi]
    exact haversine_self _ _
  · rw [entry i j hi hj]
    exact haversine_nonneg _ _ _ _

/-- Witness for `distance_matrix_symm_diag_nonneg` on a concrete
two-location list. -/
theorem distance_matrix_symm_diag_nonneg_witness :
    0 < ([((0:ℝ), (0:ℝ)), ((0:ℝ), (90:ℝ))] : List (ℝ × ℝ)).length ∧
    1 < ([((0:ℝ), (0:ℝ)), ((0:ℝ), (90:ℝ))] : List (ℝ × ℝ)).length ∧
    (((haversine_all_locations [((0:ℝ), (0:ℝ)), ((0:ℝ), (90:ℝ))]).getD 0 []).getD 1 0 =
      ((haversine_all_locations [((0:ℝ), (0:ℝ)), ((0:ℝ), (90:ℝ))]).getD 1 []).getD 0 0 ∧
    ((haversine_all_locations [((0:ℝ), (0:ℝ)), ((0:ℝ), (90:ℝ))]).getD 0 []).getD 0 0 = 0 ∧
    0 ≤ ((haversine_all_locations [((0:ℝ), (0:ℝ)), ((0:ℝ), (90:ℝ))]).getD 0 []).getD 1 0) :=
  ⟨by norm_num, by norm_num,
   distance_matrix_symm_diag_nonneg [((0:ℝ), (0:ℝ)), ((0:ℝ), (90:ℝ))] 0 1
     (by norm_num) (by norm_num)⟩

/-- C4: `haversine_all_locations` passes each location's longitude as the
latitude argument and vice versa (src/main.py line 62), which changes the
result: for the locations `(lat 45°, lon 0°)` and `(lat 45°, lon 90°)`
the code's matrix entry is `π/2 · 6371` (≈ 10007.5 km), while the
haversine distance with latitude and longitude in their declared roles is
`π/3 · 6371` (≈ 6671.7 km) — and these differ. -/
theorem haversine_all_locations_swaps_lat_lon :
    ((haversine_all_locations [((45:ℝ), 0), ((45:ℝ), 90)]).getD 0 []).getD 1 0 =
      π / 2 * 6371 ∧
    haversine 45 0 45 90 = π / 3 * 6371 ∧
    (π / 2 * 6371 : ℝ) ≠ π / 3 * 6371 := by
  have hsqrt2 : (Real.sqrt 2) * Real.sqrt 2 = 2 :=
    Real.mul_self_sqrt (by norm_num)
  refine ⟨?_, ?_, ?_⟩
  · have e1 : ((haversine_all_locations [((45:ℝ), 0), ((45:ℝ), 90)]).getD 0 []).getD 1 0 =
        haversine 0 45 90 45 := rfl
    rw [e1, haversine_eval]
    rw [show ((90:ℝ) * π / 180 - 0 * π / 180) / 2 = π / 4 by ring,
      show ((45:ℝ) * π / 180 - 45 * π / 180) / 2 = 0 by ring,
      show (0:ℝ) * π / 180 = 0 by ring,
      show (90:ℝ) * π / 180 = π / 2 by ring]
    rw [Real.cos_pi_div_two, Real.sin_zero, Real.sin_pi_div_four]
    rw [show (Real.sqrt 2 / 2) ^ 2 + cos 0 * 0 * (0:ℝ) ^ 2 =
        Real.sqrt 2 * Real.sqrt 2 / 4 by ring, hsqrt2]
    rw [show (2:ℝ) / 4 = Real.sqrt 2 / 2 * (Real.sqrt 2 / 2) by
        rw [show Real.sqrt 2 / 2 * (Real.sqrt 2 / 2) =
          Real.sqrt 2 * Real.sqrt 2 / 4 by ring, hsqrt2]]
    rw [Real.sqrt_mul_self (by positivity : (0:ℝ) ≤ Real.sqrt 2 / 2)]
    rw [← Real.sin_pi_div_four,
      Real.arcsin_sin (by linarith [Real.pi_pos]) (by linarith [Real.pi_pos])]
    ring
  · rw [haversine_eval]
    rw [show ((45:ℝ) * π / 180 - 45 * π / 180) / 2 = 0 by ring,
      show ((90:ℝ) * π / 180 - 0 * π / 180) / 2 = π / 4 by ring,
      show (45:ℝ) * π / 180 = π / 4 by ring]
    rw [Real.sin_zero, Real.cos_pi_div_four, Real.sin_pi_div_four]
    rw [show (0:ℝ) ^ 2 + Real.sqrt 2 / 2 * (Real.sqrt 2 / 2) *
          (Real.sqrt 2 / 2) ^ 2 =
        (Real.sqrt 2 * Real.sqrt 2) * (Real.sqrt 2 * Real.sqrt 2) / 16 by ring,
      hsqrt2]
    rw [show ((2:ℝ) * 2 / 16) = (1 / 2) ^ 2 by norm_num,
      Real.sqrt_sq (by norm_num : (0:ℝ) ≤ 1 / 2)]
    rw [show (1:ℝ) / 2 = sin (π / 6) from (Real.sin_pi_div_six).symm,
      Real.arcsin_sin (by linarith [Real.pi_pos]) (by linarith [Real.pi_pos])]
    ring
  · intro h
    have hπ := Real.pi_pos
    nlinarith [h]
